import Mathlib

/-!
# The `product-price` custom element (`assets/product-price.js`)

A shallow embedding of the `ProductPrice` element: its lifecycle callbacks
(`connectedCallback`, `disconnectedCallback`) and its `updatePrice` handler,
over a small model of the DOM operations the source calls
(`querySelector`, `innerHTML`, `dataset`, `classList`, `closest`,
`addEventListener`, `removeEventListener`).

Modelling conventions.

* A DOM forest is kept in first-child / next-sibling form (`Dom`); document
  order is the preorder of that structure.
* An element carries its tag name, its `id`, the token set of its `class`
  attribute and its remaining attributes (`ref`, `data-*`).
* `innerHTML` is represented by the child forest it serialises: reading it
  yields the forest, comparing two of them is structural comparison, and
  assigning it replaces the child forest. Forests are taken in the form
  the HTML parser yields, where serialising and parsing again gives the same
  forest.
* The markup carried by an event is a document of its own, disjoint from the
  one the instance lives in.
-/

set_option autoImplicit false

namespace ProductPrice

/-! ## Data model -/

/-- The own state of an element: tag name, `id`, class tokens, other attributes. -/
structure ElemData where
  tag : String
  id : Option String
  classes : List String
  attrs : List (String × String)
  deriving DecidableEq

/-- A forest of DOM nodes: `elem e children next` is an element followed by its
later siblings, `text s next` a text node followed by its later siblings. -/
inductive Dom where
  | nil : Dom
  | text (s : String) (next : Dom) : Dom
  | elem (e : ElemData) (children : Dom) (next : Dom) : Dom
  deriving DecidableEq

/-- An element reference as `querySelector` returns it: the element's own data
and its child forest. -/
structure Element where
  data : ElemData
  children : Dom
  deriving DecidableEq

/-! ## Attributes, `dataset`, `classList` -/

/-- The call `getAttribute(name)`: `none` when the attribute is absent. -/
def getAttr (name : String) : List (String × String) → Option String
  | [] => none
  | (k, v) :: rest => if k = name then some v else getAttr name rest

/-- The call `setAttribute(name, value)`: overwrite in place, or append. -/
def setAttr (name value : String) : List (String × String) → List (String × String)
  | [] => [(name, value)]
  | (k, v) :: rest => if k = name then (k, value) :: rest else (k, v) :: setAttr name value rest

/-- The getter `el.dataset.productId`, the attribute `data-product-id`. -/
def productId (e : ElemData) : Option String :=
  getAttr "data-product-id" e.attrs

/-- The assignment `el.dataset.productId = v`. -/
def setProductId (v : String) (e : ElemData) : ElemData :=
  { e with attrs := setAttr "data-product-id" v e.attrs }

/-- The getter `el.dataset.showDiscountBadge`, the attribute `data-show-discount-badge`. -/
def showDiscountBadgeAttr (e : ElemData) : Option String :=
  getAttr "data-show-discount-badge" e.attrs

/-- The call `classList.contains(c)`. -/
def classListContains (c : String) (classes : List String) : Bool :=
  classes.contains c

/-- The call `classList.add(c)`. -/
def classListAdd (c : String) (classes : List String) : List String :=
  if classes.contains c then classes else classes ++ [c]

/-- The call `classList.remove(c)`. -/
def classListRemove (c : String) (classes : List String) : List String :=
  classes.filter (fun x => x != c)

/-! ## Selectors -/

/-- The selector `[ref="priceContainer"]`. -/
def selPriceContainer (e : ElemData) : Bool :=
  getAttr "ref" e.attrs == some "priceContainer"

/-- The type selector `product-price`. -/
def selProductPriceTag (e : ElemData) : Bool :=
  e.tag == "product-price"

/-- A class selector `.c`. -/
def selClass (c : String) (e : ElemData) : Bool :=
  e.classes.contains c

/-- An id selector `#i`. -/
def selId (i : String) (e : ElemData) : Bool :=
  e.id == some i

/-- The selector `.shopify-section, dialog`. -/
def selSectionOrDialog (e : ElemData) : Bool :=
  selClass "shopify-section" e || e.tag == "dialog"

/-- The selectors `updateNode` is called with. -/
inductive Marker where
  | price
  | unitPrice
  | priceBadge
  | badgesBadge
  | compareAtPrice
  deriving DecidableEq

/-- The selector string of a marker, as a predicate on elements:
`.price`, `#unit-price`, `.product-price__badge`, `.product-badges__badge`,
`.compare-at-price`. -/
def Marker.sel : Marker → ElemData → Bool
  | .price => selClass "price"
  | .unitPrice => selId "unit-price"
  | .priceBadge => selClass "product-price__badge"
  | .badgesBadge => selClass "product-badges__badge"
  | .compareAtPrice => selClass "compare-at-price"

/-! ## Tree queries and updates -/

/-- The call `root.querySelector(sel)` for a simple selector, over the child
forest of `root`: the first element in document order that matches. -/
def querySelector (p : ElemData → Bool) : Dom → Option Element
  | .nil => none
  | .text _ next => querySelector p next
  | .elem e children next =>
    if p e then some ⟨e, children⟩
    else (querySelector p children).orElse (fun _ => querySelector p next)

/-- The call `doc.querySelector('anc sel')` with a descendant combinator: the
first element in document order that matches `p` and lies below an element
matching `anc`; `inside` records whether such an ancestor has been passed. -/
def querySelectorBelow (anc p : ElemData → Bool) (inside : Bool) : Dom → Option Element
  | .nil => none
  | .text _ next => querySelectorBelow anc p inside next
  | .elem e children next =>
    if inside && p e then some ⟨e, children⟩
    else (querySelectorBelow anc p (inside || anc e) children).orElse
      (fun _ => querySelectorBelow anc p inside next)

/-- Rewrite, in place, the element `querySelector p` returns; the forest is
unchanged when there is none. -/
def modifyFirst (p : ElemData → Bool) (f : Element → Element) : Dom → Dom
  | .nil => .nil
  | .text s next => .text s (modifyFirst p f next)
  | .elem e children next =>
    if p e then .elem (f ⟨e, children⟩).data (f ⟨e, children⟩).children next
    else if (querySelector p children).isSome then .elem e (modifyFirst p f children) next
    else .elem e children (modifyFirst p f next)

/-- The assignment `el.innerHTML = html` on an element reference. -/
def Element.setInnerHTML (html : Dom) (el : Element) : Element :=
  { el with children := html }

/-! ## The variant-update event and the instance -/

/-- The payload `event.detail.data.newProduct`; `id` is the string the
assignment to `dataset.productId` stores. -/
structure NewProduct where
  id : String
  deriving DecidableEq

/-- The node an event was dispatched on: an element of the HTML namespace (an
`HTMLElement`), an element of another namespace (SVG, MathML), or a node that
is no element (the document). -/
inductive EventTarget where
  | htmlElement (e : ElemData)
  | otherElement (e : ElemData)
  | nonElement
  deriving DecidableEq

/-- The test `target instanceof HTMLElement`: the element when it holds. -/
def EventTarget.asHTMLElement : EventTarget → Option ElemData
  | .htmlElement e => some e
  | .otherElement _ => none
  | .nonElement => none

/-- The originating node as an element of any namespace, `none` when it is no
element. -/
def EventTarget.asElement : EventTarget → Option ElemData
  | .htmlElement e => some e
  | .otherElement e => some e
  | .nonElement => none

/-- A `VariantUpdateEvent` as `updatePrice` reads it: `newProduct` is
`event.detail.data.newProduct` (`none` when falsy), `html` is the document
`event.detail.data.html`, and `target` is `event.target`. -/
structure VariantUpdateEvent where
  newProduct : Option NewProduct
  html : Dom
  target : EventTarget
  deriving DecidableEq

/-- The price block of the incoming markup:
`event.detail.data.html.querySelector('product-price [ref="priceContainer"]')`. -/
def incomingBlock (event : VariantUpdateEvent) : Option Element :=
  querySelectorBelow selProductPriceTag selPriceContainer false event.html

/-- The price block of the instance: `this.querySelector('[ref="priceContainer"]')`. -/
def priceContainer (self : Element) : Option Element :=
  querySelector selPriceContainer self.children

/-- The closure `updateNode(selector)` of `updatePrice`, as a function of the
instance's block `currentPrice`. -/
def updateNode (newPrice : Element) (selector : ElemData → Bool) (currentPrice : Element) : Element :=
  match querySelector selector newPrice.children, querySelector selector currentPrice.children with
  | some src, some dst =>
    if dst.children ≠ src.children then
      { currentPrice with
        children := modifyFirst selector (Element.setInnerHTML src.children) currentPrice.children }
    else currentPrice
  | _, _ => currentPrice

/-- The constant `badgeClass`. -/
def badgeClass : String := "price--has-badge"

/-- The last statement of `updatePrice`: sync the container class. -/
def syncBadgeClass (showDiscountBadge : Bool) (currentPrice : Element) : Element :=
  if showDiscountBadge && !classListContains badgeClass currentPrice.data.classes then
    { currentPrice with
      data := { currentPrice.data with classes := classListAdd badgeClass currentPrice.data.classes } }
  else if !showDiscountBadge && classListContains badgeClass currentPrice.data.classes then
    { currentPrice with
      data := { currentPrice.data with classes := classListRemove badgeClass currentPrice.data.classes } }
  else currentPrice

/-- The part of `updatePrice` that runs once both blocks are found (from the
definition of `updateNode` to the end), as a function of the instance's block. -/
def reconcile (newPrice : Element) (showDiscountBadge : Bool) (currentPrice : Element) : Element :=
  let c1 := updateNode newPrice Marker.price.sel currentPrice
  let c2 := updateNode newPrice Marker.unitPrice.sel c1
  let c3 :=
    if showDiscountBadge then
      updateNode newPrice Marker.badgesBadge.sel (updateNode newPrice Marker.priceBadge.sel c2)
    else
      updateNode newPrice Marker.compareAtPrice.sel c2
  syncBadgeClass showDiscountBadge c3

/-- The first statement of `updatePrice` (identity gating): the instance after
it, or `none` when the handler returns there. -/
def identityGate (event : VariantUpdateEvent) (self : Element) : Option Element :=
  match event.newProduct with
  | some newProduct => some { self with data := setProductId newProduct.id self.data }
  | none =>
    match event.target.asHTMLElement with
    | some target => if productId target ≠ productId self.data then none else some self
    | none => some self

/-- Where a run of `updatePrice` ends: at the `return` of the identity gate, at
the `return` taken when a block is missing, or at the end of the body. -/
inductive Exit where
  | gate
  | noBlock
  | done
  deriving DecidableEq

/-- The handler `updatePrice` on the instance `self`: the exit taken and the
instance afterwards. -/
def updatePriceRun (event : VariantUpdateEvent) (self : Element) : Exit × Element :=
  match identityGate event self with
  | none => (Exit.gate, self)
  | some self1 =>
    match incomingBlock event, priceContainer self1 with
    | some newPrice, some _ =>
      let showDiscountBadge : Bool := showDiscountBadgeAttr self1.data == some "true"
      (Exit.done,
        { self1 with
          children := modifyFirst selPriceContainer (reconcile newPrice showDiscountBadge) self1.children })
    | _, _ => (Exit.noBlock, self1)

/-- The instance after `updatePrice(event)`. -/
def updatePrice (event : VariantUpdateEvent) (self : Element) : Element :=
  (updatePriceRun event self).2

/-- The sub-fragment of the instance's block a marker selects:
`currentPrice.querySelector(selector)`. -/
def subFragment (m : Marker) (self : Element) : Option Element :=
  (priceContainer self).bind (fun currentPrice => querySelector m.sel currentPrice.children)

/-- The `innerHTML` of the sub-fragment a marker selects in the instance. -/
def subFragmentContent (m : Marker) (self : Element) : Option Dom :=
  (subFragment m self).map Element.children

/-- The `innerHTML` of the sub-fragment a marker selects in a block. -/
def blockContent (m : Marker) (block : Element) : Option Dom :=
  (querySelector m.sel block.children).map Element.children

/-! ## Well-formedness of a price block -/

/-- All markers, in the order of `Marker`. -/
def Marker.all : List Marker :=
  [.price, .unitPrice, .priceBadge, .badgesBadge, .compareAtPrice]

/-- An element some `updateNode` selector matches. -/
def marked (e : ElemData) : Bool :=
  Marker.all.any (fun m => m.sel e)

/-- At most one `updateNode` selector matches the element. -/
def singleMarker (e : ElemData) : Bool :=
  Marker.all.all (fun m => Marker.all.all (fun m' => !(m.sel e && m'.sel e) || m == m'))

/-- No element of the forest, at any depth, is marked. -/
def markerFree : Dom → Bool
  | .nil => true
  | .text _ next => markerFree next
  | .elem e children next => !marked e && markerFree children && markerFree next

/-- No marked element of the forest has a marked element below it. -/
def nonNested : Dom → Bool
  | .nil => true
  | .text _ next => nonNested next
  | .elem e children next =>
    (if marked e then markerFree children else nonNested children) && nonNested next

/-- No marked element of the forest has a marked element below it, and none
carries two markers. -/
def independent : Dom → Bool
  | .nil => true
  | .text _ next => independent next
  | .elem e children next =>
    (if marked e then singleMarker e && markerFree children else independent children)
      && independent next

/-! ## Descriptions used by the statements -/

/-- What `updateNode` leaves under a marker: the incoming content in the
instance's element when both sides have one, the instance's element otherwise. -/
def copyOf (newPrice currentPrice : Element) (m : Marker) : Option Element :=
  match querySelector m.sel newPrice.children, querySelector m.sel currentPrice.children with
  | some src, some dst => some ⟨dst.data, src.children⟩
  | _, dst => dst

/-- The markers `updatePrice` calls `updateNode` with, in call order, for a
value of `showDiscountBadge`. -/
def copiedMarkers (showDiscountBadge : Bool) : List Marker :=
  if showDiscountBadge then [.price, .unitPrice, .priceBadge, .badgesBadge]
  else [.price, .unitPrice, .compareAtPrice]

/-- A run of `updateNode` calls, one per marker, in list order. -/
def updateNodes (newPrice : Element) (ms : List Marker) (currentPrice : Element) : Element :=
  ms.foldl (fun c m => updateNode newPrice m.sel c) currentPrice

/-! ## Example markup and scenarios -/

/-- An element without `id` and attributes. -/
def span (classes : List String) (children next : Dom) : Dom :=
  .elem ⟨"span", none, classes, []⟩ children next

/-- An element `<span id="unit-price">`. -/
def unitPriceSpan (children next : Dom) : Dom :=
  .elem ⟨"span", some "unit-price", [], []⟩ children next

/-- A lone text node. -/
def txt (s : String) : Dom := .text s .nil

/-- The markup `<div ref="priceContainer" class=...>block</div>`. -/
def containerOf (classes : List String) (block : Dom) : Dom :=
  .elem ⟨"div", none, classes, [("ref", "priceContainer")]⟩ block .nil

/-- A `product-price` instance with the given attributes around a price block. -/
def instanceOf (attrs : List (String × String)) (classes : List String) (block : Dom) : Element :=
  ⟨⟨"product-price", none, [], attrs⟩, containerOf classes block⟩

/-- The document `<product-price><div ref="priceContainer">block</div></product-price>`. -/
def documentOf (block : Dom) : Dom :=
  .elem ⟨"product-price", none, [], []⟩ (containerOf [] block) .nil

/-- An element carrying only a `data-product-id`. -/
def pickerOf (pid : String) : ElemData :=
  ⟨"variant-picker", none, [], [("data-product-id", pid)]⟩

/-- Scenario of C3: the instance, associated with product "123". -/
def c3Instance : Element :=
  instanceOf [("data-product-id", "123")] [] (span ["price"] (txt "$20.00") .nil)

/-- Scenario of C3: a notification from an element of product "999", without
a new-product payload. -/
def c3Event : VariantUpdateEvent :=
  ⟨none, documentOf (span ["price"] (txt "$15.00") .nil), .htmlElement (pickerOf "999")⟩

/-- Counterexample scenario for C3: a notification without new-product
payload, dispatched on an SVG element of product "999". -/
def c3SvgEvent : VariantUpdateEvent :=
  ⟨none, documentOf (span ["price"] (txt "$15.00") .nil),
    .otherElement ⟨"svg", none, [], [("data-product-id", "999")]⟩⟩

/-- Scenario for C7: an instance associated with product "123", without a
price block. -/
def c7Instance : Element :=
  ⟨⟨"product-price", none, [], [("data-product-id", "123")]⟩, txt "loading"⟩

/-- Scenario for C7: a notification with new product "456" from an element of
product "999", whose markup holds no price block. -/
def c7Event : VariantUpdateEvent :=
  ⟨some ⟨"456"⟩, txt "", .htmlElement (pickerOf "999")⟩

/-- Scenario for C4: an instance of product "123" whose markup has a price
block. -/
def c4Instance : Element :=
  instanceOf [("data-product-id", "123"), ("data-show-discount-badge", "true")] []
    (span ["price"] (txt "$20.00") .nil)

/-- Scenario for C4: a notification with new product "456" whose markup has no
price block. -/
def c4Event : VariantUpdateEvent :=
  ⟨some ⟨"456"⟩, span ["price"] (txt "$15.00") .nil, .nonElement⟩

/-- Scenario for C8: a "show crossed price" instance whose container carries
`price--has-badge` between two other classes. -/
def c8Instance : Element :=
  instanceOf [("data-product-id", "123"), ("data-show-discount-badge", "false")]
    ["price-block", "price--has-badge", "text-left"] (span ["price"] (txt "$20.00") .nil)

/-- Scenario for C8: a notification of the same product. -/
def c8Event : VariantUpdateEvent :=
  ⟨none, documentOf (span ["price"] (txt "$15.00") .nil), .htmlElement (pickerOf "123")⟩

/-- Counterexample scenario for C1: a "show badge" instance whose
compare-at price is rendered inside the price element. -/
def c1NestedInstance : Element :=
  instanceOf [("data-product-id", "123"), ("data-show-discount-badge", "true")] ["price--has-badge"]
    (span ["price"] (span ["compare-at-price"] (txt "$20.00") (txt "$18.00"))
      (span ["product-price__badge"] (txt "Sale") .nil))

/-- Counterexample scenario for C1: a notification of the same product with
markup of the same shape. -/
def c1NestedEvent : VariantUpdateEvent :=
  ⟨none,
    documentOf (span ["price"] (span ["compare-at-price"] (txt "$25.00") (txt "$15.00"))
      (span ["product-price__badge"] (txt "20% off") .nil)),
    .htmlElement (pickerOf "123")⟩

/-- Second counterexample scenario for C1: a "show badge" instance with a
price and a badge side by side. -/
def c1StaleInstance : Element :=
  instanceOf [("data-product-id", "123"), ("data-show-discount-badge", "true")] ["price--has-badge"]
    (span ["price"] (txt "$18.00") (span ["product-price__badge"] (txt "Sale") .nil))

/-- Second counterexample scenario for C1: a notification of the same product
whose block has a price and no badge. -/
def c1StaleEvent : VariantUpdateEvent :=
  ⟨none, documentOf (span ["price"] (txt "$20.00") .nil), .htmlElement (pickerOf "123")⟩

/-- Scenario for C1: the block of a "show badge" instance with both badges
and a compare-at price, side by side. -/
def c1Block : Dom :=
  span ["compare-at-price"] (txt "$20.00")
    (span ["price"] (txt "$18.00")
      (span ["product-price__badge"] (txt "Sale")
        (span ["product-badges__badge"] (txt "Sale") .nil)))

/-- Scenario for C1: the instance around `c1Block`. -/
def c1Instance : Element :=
  instanceOf [("data-product-id", "123"), ("data-show-discount-badge", "true")] [] c1Block

/-- Scenario for C1: the incoming block. -/
def c1Incoming : Dom :=
  span ["compare-at-price"] (txt "$25.00")
    (span ["price"] (txt "$15.00")
      (span ["product-price__badge"] (txt "20% off")
        (span ["product-badges__badge"] (txt "-20%") .nil)))

/-- Scenario for C1: a notification of the same product carrying `c1Incoming`. -/
def c1Event : VariantUpdateEvent :=
  ⟨none, documentOf c1Incoming, .htmlElement (pickerOf "123")⟩

/-- Counterexample scenario for C2: a "show crossed price" instance whose
discount badge is rendered inside the price element. -/
def c2NestedInstance : Element :=
  instanceOf [("data-product-id", "123"), ("data-show-discount-badge", "false")] []
    (span ["price"] (.text "$20.00" (span ["product-price__badge"] (txt "Sale") .nil))
      (span ["compare-at-price"] (txt "$25.00") .nil))

/-- Counterexample scenario for C2: a notification of the same product with
markup of the same shape. -/
def c2NestedEvent : VariantUpdateEvent :=
  ⟨none,
    documentOf (span ["price"] (.text "$15.00" (span ["product-price__badge"] (txt "20% off") .nil))
      (span ["compare-at-price"] (txt "$30.00") .nil)),
    .htmlElement (pickerOf "123")⟩

/-- Second counterexample scenario for C2: a "show crossed price" instance
with a price and a compare-at price side by side. -/
def c2StaleInstance : Element :=
  instanceOf [("data-product-id", "123"), ("data-show-discount-badge", "false")] []
    (span ["compare-at-price"] (txt "$25.00") (span ["price"] (txt "$20.00") .nil))

/-- Second counterexample scenario for C2: a notification of the same product
whose block has a price and no compare-at price. -/
def c2StaleEvent : VariantUpdateEvent :=
  ⟨none, documentOf (span ["price"] (txt "$22.00") .nil), .htmlElement (pickerOf "123")⟩

/-- Scenario for C2: the block of a "show crossed price" instance. -/
def c2Block : Dom :=
  span ["price"] (txt "$20.00")
    (span ["compare-at-price"] (txt "$25.00")
      (span ["product-price__badge"] (txt "Sale")
        (span ["product-badges__badge"] (txt "Sale") .nil)))

/-- Scenario for C2: the instance around `c2Block`; the display attribute is
absent. -/
def c2Instance : Element :=
  instanceOf [("data-product-id", "123")] [] c2Block

/-- Scenario for C2: the incoming block. -/
def c2Incoming : Dom :=
  span ["price"] (txt "$15.00")
    (span ["compare-at-price"] (txt "$30.00")
      (span ["product-price__badge"] (txt "50% off")
        (span ["product-badges__badge"] (txt "-50%") .nil)))

/-- Scenario for C2: a notification of the same product carrying `c2Incoming`. -/
def c2Event : VariantUpdateEvent :=
  ⟨none, documentOf c2Incoming, .htmlElement (pickerOf "123")⟩

/-- Counterexample scenario for C6: an instance whose unit price holds a
price element, before the primary price. -/
def c6NestedInstance : Element :=
  instanceOf [("data-product-id", "123"), ("data-show-discount-badge", "true")] []
    (unitPriceSpan (span ["price"] (txt "$4.00") (txt "/ea"))
      (span ["price"] (txt "$20.00") .nil))

/-- Counterexample scenario for C6: a notification of the same product with a
price and a unit price side by side. -/
def c6NestedEvent : VariantUpdateEvent :=
  ⟨none,
    documentOf (span ["price"] (txt "$15.00") (unitPriceSpan (txt "$5.00/ea") .nil)),
    .htmlElement (pickerOf "123")⟩

/-- Scenario of the specification (C6): the block of a "show badge" instance
with compare-at price "$20.00" and badge "Sale". -/
def c6Block : Dom :=
  span ["compare-at-price"] (txt "$20.00")
    (span ["price"] (txt "$18.00")
      (unitPriceSpan (txt "$6.00/ea")
        (span ["product-price__badge"] (txt "Sale") .nil)))

/-- Scenario of the specification (C6): the instance around `c6Block`. -/
def c6Instance : Element :=
  instanceOf [("data-product-id", "123"), ("data-show-discount-badge", "true")] [] c6Block

/-- Scenario of the specification (C6): the incoming block, price "$15.00",
unit price "$5.00/ea", badge "20% off", compare-at price "$25.00". -/
def c6Incoming : Dom :=
  span ["compare-at-price"] (txt "$25.00")
    (span ["price"] (txt "$15.00")
      (unitPriceSpan (txt "$5.00/ea")
        (span ["product-price__badge"] (txt "20% off") .nil)))

/-- Scenario of the specification (C6): a notification of the same product
carrying `c6Incoming`. -/
def c6Event : VariantUpdateEvent :=
  ⟨none, documentOf c6Incoming, .htmlElement (pickerOf "123")⟩

/-- Counterexample scenario for C5: an instance whose unit price holds a
price element, followed by a second price element. -/
def c5NestedInstance : Element :=
  instanceOf [("data-product-id", "123")] []
    (unitPriceSpan (span ["price"] (txt "$4.00") .nil)
      (span ["price"] (txt "$20.00") .nil))

/-- Counterexample scenario for C5: a notification of the same product with a
price and a unit price side by side. -/
def c5NestedEvent : VariantUpdateEvent :=
  ⟨none,
    documentOf (span ["price"] (txt "$15.00") (unitPriceSpan (txt "$5.00/ea") .nil)),
    .htmlElement (pickerOf "123")⟩

/-- Scenario for C5: the block of a "show badge" instance. -/
def c5Block : Dom :=
  span ["price"] (txt "$18.00")
    (unitPriceSpan (txt "$6.00/ea")
      (span ["product-price__badge"] (txt "Sale") .nil))

/-- Scenario for C5: the instance around `c5Block`, of product "123". -/
def c5Instance : Element :=
  instanceOf [("data-product-id", "123"), ("data-show-discount-badge", "true")] [] c5Block

/-- Scenario for C5: the incoming block. -/
def c5Incoming : Dom :=
  span ["price"] (txt "$15.00")
    (unitPriceSpan (txt "$5.00/ea")
      (span ["product-price__badge"] (txt "20% off") .nil))

/-- Scenario for C5: a notification with new product "456" carrying
`c5Incoming`. -/
def c5Event : VariantUpdateEvent :=
  ⟨some ⟨"456"⟩, documentOf c5Incoming, .nonElement⟩

/-! ## Lifecycle: ancestors and listeners -/

/-- A node of the document as the lifecycle callbacks meet it: its identity
and its own data. -/
structure NodeRef where
  uid : Nat
  data : ElemData
  deriving DecidableEq

/-- One registration made by `addEventListener`: the node it is made on, the
event type, and the callback. Each instance owns one `updatePrice` closure,
identified by the instance's `uid`. -/
structure Listener where
  node : Nat
  type : String
  handler : Nat
  deriving DecidableEq

/-- The call `el.closest(sel)`: the first of the element and its ancestors,
nearest first, that matches. -/
def closest (sel : ElemData → Bool) (self : NodeRef) (ancestors : List NodeRef) : Option NodeRef :=
  (self :: ancestors).find? (fun n => sel n.data)

/-- The call `node.addEventListener(type, handler)`: no effect when the same
registration exists. -/
def addEventListener (l : Listener) (registry : List Listener) : List Listener :=
  if l ∈ registry then registry else registry ++ [l]

/-- The call `node.removeEventListener(type, handler)`. -/
def removeEventListener (l : Listener) (registry : List Listener) : List Listener :=
  registry.filter (fun x => x != l)

/-- The method `connectedCallback` of the instance `self` below `ancestors`;
`variantUpdate` is the constant `ThemeEvents.variantUpdate`. -/
def connectedCallback (variantUpdate : String) (self : NodeRef) (ancestors : List NodeRef)
    (registry : List Listener) : List Listener :=
  match closest selSectionOrDialog self ancestors with
  | none => registry
  | some closestSection =>
    addEventListener ⟨closestSection.uid, variantUpdate, self.uid⟩ registry

/-- The method `disconnectedCallback` of the instance `self` below `ancestors`. -/
def disconnectedCallback (variantUpdate : String) (self : NodeRef) (ancestors : List NodeRef)
    (registry : List Listener) : List Listener :=
  match closest selSectionOrDialog self ancestors with
  | none => registry
  | some closestSection =>
    removeEventListener ⟨closestSection.uid, variantUpdate, self.uid⟩ registry

/-- The ancestors an instance is left with once its `k`-th inclusive ancestor
(`0` is the instance itself) has been removed from its parent: the nodes
above the removed one are ancestors no more. The platform runs
`disconnectedCallback` after this. -/
def ancestorsAfterRemoval (k : Nat) (ancestors : List NodeRef) : List NodeRef :=
  ancestors.take k

/-- Scenario for C9: the instance. -/
def c9Self : NodeRef :=
  ⟨1, ⟨"product-price", none, [], [("data-product-id", "123")]⟩⟩

/-- Scenario for C9: the instance sits in a `div` of a section of the body. -/
def c9Ancestors : List NodeRef :=
  [⟨2, ⟨"div", none, ["product-details"], []⟩⟩,
   ⟨3, ⟨"div", none, ["shopify-section"], []⟩⟩,
   ⟨4, ⟨"body", none, [], []⟩⟩]

/-- The number of `innerHTML` assignments a call `updateNode(selector)`
performs on the block `currentPrice`: one when both elements exist and their
`innerHTML` differ, none otherwise. -/
def updateNodeWrites (newPrice : Element) (selector : ElemData → Bool) (currentPrice : Element) :
    Nat :=
  match querySelector selector newPrice.children, querySelector selector currentPrice.children with
  | some src, some dst => if dst.children ≠ src.children then 1 else 0
  | _, _ => 0

/-- The number of `classList.add` and `classList.remove` calls the last
statement of `updatePrice` performs. -/
def syncBadgeClassWrites (showDiscountBadge : Bool) (currentPrice : Element) : Nat :=
  if showDiscountBadge && !classListContains badgeClass currentPrice.data.classes then 1
  else if !showDiscountBadge && classListContains badgeClass currentPrice.data.classes then 1
  else 0

/-- The number of `innerHTML` assignments and class toggles of the part of
`updatePrice` that `reconcile` models, call by call. -/
def reconcileWrites (newPrice : Element) (showDiscountBadge : Bool) (currentPrice : Element) :
    Nat :=
  let c1 := updateNode newPrice Marker.price.sel currentPrice
  let c2 := updateNode newPrice Marker.unitPrice.sel c1
  let n2 := updateNodeWrites newPrice Marker.price.sel currentPrice
    + updateNodeWrites newPrice Marker.unitPrice.sel c1
  if showDiscountBadge then
    let c3 := updateNode newPrice Marker.priceBadge.sel c2
    let c4 := updateNode newPrice Marker.badgesBadge.sel c3
    n2 + updateNodeWrites newPrice Marker.priceBadge.sel c2
      + updateNodeWrites newPrice Marker.badgesBadge.sel c3
      + syncBadgeClassWrites showDiscountBadge c4
  else
    let c3 := updateNode newPrice Marker.compareAtPrice.sel c2
    n2 + updateNodeWrites newPrice Marker.compareAtPrice.sel c2
      + syncBadgeClassWrites showDiscountBadge c3

/-- The number of `innerHTML` assignments and class toggles of a run of
`updatePrice(event)` on the instance `self`. -/
def updatePriceWrites (event : VariantUpdateEvent) (self : Element) : Nat :=
  match identityGate event self with
  | none => 0
  | some self1 =>
    match incomingBlock event, priceContainer self1 with
    | some newPrice, some currentPrice =>
      reconcileWrites newPrice (showDiscountBadgeAttr self1.data == some "true") currentPrice
    | _, _ => 0

/-- The writes of a run of `updateNode` calls, one per marker, in list order. -/
def updateNodesWrites (newPrice : Element) : List Marker → Element → Nat
  | [], _ => 0
  | m :: ms, currentPrice =>
    updateNodeWrites newPrice m.sel currentPrice
      + updateNodesWrites newPrice ms (updateNode newPrice m.sel currentPrice)

/-! # Theorems -/

/-! ### Markers -/

theorem marked_of_sel (m : Marker) (e : ElemData) (h : m.sel e = true) : marked e = true := by
  unfold marked
  rw [List.any_eq_true]
  exact ⟨m, by cases m <;> simp [Marker.all], h⟩

theorem sel_false_of_not_marked (m : Marker) (e : ElemData) (h : marked e = false) :
    m.sel e = false := by
  cases hm : m.sel e
  · rfl
  · rw [marked_of_sel m e hm] at h; exact absurd h (by simp)

theorem Marker.mem_all (m : Marker) : m ∈ Marker.all := by
  cases m <;> simp [Marker.all]

theorem eq_of_singleMarker (m m' : Marker) (e : ElemData) (hs : singleMarker e = true)
    (h : m.sel e = true) (h' : m'.sel e = true) : m = m' := by
  unfold singleMarker at hs
  rw [List.all_eq_true] at hs
  have h1 := hs m m.mem_all
  rw [List.all_eq_true] at h1
  have h2 := h1 m' m'.mem_all
  simpa [h, h'] using h2

theorem querySelector_markerFree (m : Marker) (d : Dom) (h : markerFree d = true) :
    querySelector m.sel d = none := by
  induction d with
  | nil => rfl
  | text s next ih => exact ih h
  | elem e children next ihc ihn =>
    simp only [markerFree, Bool.and_eq_true, Bool.not_eq_true'] at h
    obtain ⟨⟨he, hc⟩, hn⟩ := h
    simp [querySelector, sel_false_of_not_marked m e he, ihc hc, ihn hn]

theorem nonNested_of_markerFree (d : Dom) (h : markerFree d = true) : nonNested d = true := by
  induction d with
  | nil => rfl
  | text s next ih => exact ih h
  | elem e children next ihc ihn =>
    simp only [markerFree, Bool.and_eq_true, Bool.not_eq_true'] at h
    obtain ⟨⟨he, hc⟩, hn⟩ := h
    simp [nonNested, he, ihc hc, ihn hn]

theorem independent_of_markerFree (d : Dom) (h : markerFree d = true) : independent d = true := by
  induction d with
  | nil => rfl
  | text s next ih => exact ih h
  | elem e children next ihc ihn =>
    simp only [markerFree, Bool.and_eq_true, Bool.not_eq_true'] at h
    obtain ⟨⟨he, hc⟩, hn⟩ := h
    simp [independent, he, ihc hc, ihn hn]

theorem nonNested_of_independent (d : Dom) (h : independent d = true) : nonNested d = true := by
  induction d with
  | nil => rfl
  | text s next ih => exact ih h
  | elem e children next ihc ihn =>
    simp only [independent, Bool.and_eq_true] at h
    obtain ⟨h1, hn⟩ := h
    cases he : marked e
    · simp only [he] at h1
      simp [nonNested, he, ihc (by simpa using h1), ihn hn]
    · simp only [he, if_true, Bool.and_eq_true] at h1
      simp [nonNested, he, h1.2, ihn hn]

/-- In a non-nested forest the content of a marked element holds no marker. -/
theorem markerFree_children_of_querySelector (m : Marker) (d : Dom) (el : Element)
    (h : nonNested d = true) (hq : querySelector m.sel d = some el) :
    markerFree el.children = true := by
  induction d with
  | nil => simp [querySelector] at hq
  | text s next ih => exact ih h hq
  | elem e children next ihc ihn =>
    simp only [nonNested, Bool.and_eq_true] at h
    obtain ⟨h1, hn⟩ := h
    simp only [querySelector] at hq
    by_cases hp : m.sel e = true
    · simp only [hp, if_true, Option.some.injEq] at hq
      subst hq
      simpa [marked_of_sel m e hp] using h1
    · simp only [hp] at hq
      cases hme : marked e
      · simp only [hme] at h1
        cases hc : querySelector m.sel children with
        | some x =>
          simp [hc] at hq
          subst hq
          exact ihc (by simpa using h1) hc
        | none =>
          simp [hc] at hq
          exact ihn hn hq
      · simp only [hme, if_true] at h1
        rw [querySelector_markerFree m children h1] at hq
        simp at hq
        exact ihn hn hq

/-! ### `modifyFirst` and `querySelector` -/

theorem modifyFirst_of_none (p : ElemData → Bool) (f : Element → Element) (d : Dom)
    (h : querySelector p d = none) : modifyFirst p f d = d := by
  induction d with
  | nil => rfl
  | text s next ih => simp only [querySelector] at h; simp [modifyFirst, ih h]
  | elem e children next ihc ihn =>
    simp only [querySelector] at h
    by_cases hp : p e = true
    · simp [hp] at h
    · simp only [hp] at h
      cases hc : querySelector p children with
      | some x => simp [hc] at h
      | none =>
        simp [hc] at h
        simp [modifyFirst, hp, hc, ihn h]

theorem querySelector_modifyFirst (p : ElemData → Bool) (f : Element → Element)
    (hf : ∀ el, p el.data = true → p (f el).data = true) (d : Dom) :
    querySelector p (modifyFirst p f d) = (querySelector p d).map f := by
  induction d with
  | nil => rfl
  | text s next ih => simpa [querySelector, modifyFirst] using ih
  | elem e children next ihc ihn =>
    by_cases hp : p e = true
    · have := hf ⟨e, children⟩ hp
      simp [querySelector, modifyFirst, hp, this]
    · cases hc : querySelector p children with
      | some x =>
        simp [querySelector, modifyFirst, hp, hc, ihc]
      | none =>
        simp [querySelector, modifyFirst, hp, hc, ihn]

theorem modifyFirst_congr (p : ElemData → Bool) (f g : Element → Element) (d : Dom)
    (h : ∀ el, querySelector p d = some el → f el = g el) :
    modifyFirst p f d = modifyFirst p g d := by
  induction d with
  | nil => rfl
  | text s next ih => simp only [querySelector] at h; simp [modifyFirst, ih h]
  | elem e children next ihc ihn =>
    by_cases hp : p e = true
    · have := h ⟨e, children⟩ (by simp [querySelector, hp])
      simp [modifyFirst, hp, this]
    · cases hc : querySelector p children with
      | some x =>
        have := ihc (fun el hel => h el (by simp [querySelector, hp, hc] at hel ⊢; exact hel))
        simp [modifyFirst, hp, hc, this]
      | none =>
        have := ihn (fun el hel => h el (by simp [querySelector, hp, hc]; exact hel))
        simp [modifyFirst, hp, hc, this]

theorem modifyFirst_modifyFirst (p : ElemData → Bool) (f g : Element → Element)
    (hf : ∀ el, p el.data = true → p (f el).data = true) (d : Dom) :
    modifyFirst p g (modifyFirst p f d) = modifyFirst p (fun el => g (f el)) d := by
  induction d with
  | nil => rfl
  | text s next ih => simp [modifyFirst, ih]
  | elem e children next ihc ihn =>
    by_cases hp : p e = true
    · have := hf ⟨e, children⟩ hp
      simp [modifyFirst, hp, this]
    · cases hc : querySelector p children with
      | some x =>
        have h2 : (querySelector p (modifyFirst p f children)).isSome = true := by
          rw [querySelector_modifyFirst p f hf, hc]; rfl
        simp [modifyFirst, hp, hc, h2, ihc]
      | none =>
        simp [modifyFirst, hp, hc, ihn]

/-- Writing marker-free content into one marked element of an independent
forest does not change what another marker selects. -/
theorem querySelector_modifyFirst_other (m m' : Marker) (c : Dom) (d : Dom)
    (hc : markerFree c = true) (hd : independent d = true) (hne : m ≠ m') :
    querySelector m'.sel (modifyFirst m.sel (Element.setInnerHTML c) d) = querySelector m'.sel d := by
  induction d with
  | nil => rfl
  | text s next ih => simpa [querySelector, modifyFirst] using ih hd
  | elem e children next ihc ihn =>
    simp only [independent, Bool.and_eq_true] at hd
    obtain ⟨h1, hn⟩ := hd
    by_cases hp : m.sel e = true
    · simp only [marked_of_sel m e hp, if_true, Bool.and_eq_true] at h1
      have hp' : m'.sel e = false := by
        cases h' : m'.sel e
        · rfl
        · exact absurd (eq_of_singleMarker m m' e h1.1 hp h') hne
      simp [querySelector, modifyFirst, hp, hp', Element.setInnerHTML,
        querySelector_markerFree m' c hc, querySelector_markerFree m' children h1.2]
    · cases hme : marked e
      · simp only [hme] at h1
        have h1' : independent children = true := by simpa using h1
        have hp' := sel_false_of_not_marked m' e hme
        cases hq : querySelector m.sel children with
        | some x => simp [querySelector, modifyFirst, hp, hp', hq, ihc h1']
        | none => simp [querySelector, modifyFirst, hp, hp', hq, ihn hn]
      · simp only [hme, if_true, Bool.and_eq_true] at h1
        have hq := querySelector_markerFree m children h1.2
        by_cases hp' : m'.sel e = true
        · simp [querySelector, modifyFirst, hp, hp', hq]
        · simp [querySelector, modifyFirst, hp, hp', hq, ihn hn]

/-- Writing marker-free content into a marked element keeps a forest independent. -/
theorem independent_modifyFirst (m : Marker) (c : Dom) (d : Dom)
    (hc : markerFree c = true) (hd : independent d = true) :
    independent (modifyFirst m.sel (Element.setInnerHTML c) d) = true := by
  induction d with
  | nil => rfl
  | text s next ih => simpa [independent, modifyFirst] using ih hd
  | elem e children next ihc ihn =>
    simp only [independent, Bool.and_eq_true] at hd
    obtain ⟨h1, hn⟩ := hd
    by_cases hp : m.sel e = true
    · simp only [marked_of_sel m e hp, if_true, Bool.and_eq_true] at h1
      simp [independent, modifyFirst, hp, marked_of_sel m e hp, Element.setInnerHTML, h1.1, hc, hn]
    · cases hme : marked e
      · simp only [hme] at h1
        have h1' : independent children = true := by simpa using h1
        cases hq : querySelector m.sel children with
        | some x => simp [independent, modifyFirst, hp, hq, hme, ihc h1', hn]
        | none => simp [independent, modifyFirst, hp, hq, hme, h1', ihn hn]
      · simp only [hme, if_true, Bool.and_eq_true] at h1
        have hq := querySelector_markerFree m children h1.2
        simp [independent, modifyFirst, hp, hq, hme, h1.1, h1.2, ihn hn]

/-! ### `updateNode` -/

theorem updateNode_data (newPrice : Element) (p : ElemData → Bool) (currentPrice : Element) :
    (updateNode newPrice p currentPrice).data = currentPrice.data := by
  unfold updateNode
  split
  · split <;> rfl
  · rfl

theorem updateNode_same (newPrice currentPrice : Element) (m : Marker) :
    querySelector m.sel (updateNode newPrice m.sel currentPrice).children
      = copyOf newPrice currentPrice m := by
  unfold updateNode copyOf
  cases hs : querySelector m.sel newPrice.children with
  | none => simp
  | some src =>
    cases hd : querySelector m.sel currentPrice.children with
    | none => simp [hd]
    | some dst =>
      by_cases hne : dst.children = src.children
      · simp [hne, hd]
        cases dst; simp_all
      · simp only [hne, ne_eq, not_false_eq_true, if_true]
        rw [querySelector_modifyFirst m.sel (Element.setInnerHTML src.children) (fun el h => h), hd]
        rfl

theorem updateNode_other (newPrice currentPrice : Element) (m m' : Marker)
    (hN : nonNested newPrice.children = true) (hD : independent currentPrice.children = true)
    (hne : m ≠ m') :
    querySelector m'.sel (updateNode newPrice m.sel currentPrice).children
      = querySelector m'.sel currentPrice.children := by
  unfold updateNode
  cases hs : querySelector m.sel newPrice.children with
  | none => simp
  | some src =>
    cases hd : querySelector m.sel currentPrice.children with
    | none => simp
    | some dst =>
      by_cases hc : dst.children = src.children
      · simp [hc]
      · simp only [hc, ne_eq, not_false_eq_true, if_true]
        exact querySelector_modifyFirst_other m m' src.children currentPrice.children
          (markerFree_children_of_querySelector m _ src hN hs) hD hne

theorem updateNode_independent (newPrice currentPrice : Element) (m : Marker)
    (hN : nonNested newPrice.children = true) (hD : independent currentPrice.children = true) :
    independent (updateNode newPrice m.sel currentPrice).children = true := by
  unfold updateNode
  cases hs : querySelector m.sel newPrice.children with
  | none => simpa using hD
  | some src =>
    cases hd : querySelector m.sel currentPrice.children with
    | none => simpa using hD
    | some dst =>
      by_cases hc : dst.children = src.children
      · simpa [hc] using hD
      · simp only [hc, ne_eq, not_false_eq_true, if_true]
        exact independent_modifyFirst m src.children currentPrice.children
          (markerFree_children_of_querySelector m _ src hN hs) hD

/-- Running `updateNode` on a block whose element under the marker already
holds the incoming content, or that lacks the element on either side, leaves
the block as it is. -/
theorem updateNode_eq_self (newPrice base x : Element) (m : Marker)
    (h : querySelector m.sel x.children = copyOf newPrice base m) :
    updateNode newPrice m.sel x = x := by
  unfold updateNode
  unfold copyOf at h
  cases hs : querySelector m.sel newPrice.children with
  | none => simp
  | some src =>
    cases hd : querySelector m.sel x.children with
    | none => simp
    | some dst =>
      rw [hs, hd] at h
      cases hb : querySelector m.sel base.children with
      | none => rw [hb] at h; simp at h
      | some b =>
        rw [hb] at h
        simp only [Option.some.injEq] at h
        subst h
        simp

/-! ### `reconcile` -/

theorem reconcile_eq (newPrice : Element) (b : Bool) (currentPrice : Element) :
    reconcile newPrice b currentPrice
      = syncBadgeClass b (updateNodes newPrice (copiedMarkers b) currentPrice) := by
  cases b <;> rfl

theorem copiedMarkers_nodup (b : Bool) : (copiedMarkers b).Nodup := by
  cases b <;> decide

theorem updateNodes_data (newPrice : Element) (ms : List Marker) (currentPrice : Element) :
    (updateNodes newPrice ms currentPrice).data = currentPrice.data := by
  induction ms generalizing currentPrice with
  | nil => rfl
  | cons m ms ih =>
    show (updateNodes newPrice ms (updateNode newPrice m.sel currentPrice)).data = _
    rw [ih, updateNode_data]

theorem updateNodes_independent (newPrice : Element) (ms : List Marker) (currentPrice : Element)
    (hN : nonNested newPrice.children = true) (hD : independent currentPrice.children = true) :
    independent (updateNodes newPrice ms currentPrice).children = true := by
  induction ms generalizing currentPrice with
  | nil => exact hD
  | cons m ms ih =>
    show independent (updateNodes newPrice ms (updateNode newPrice m.sel currentPrice)).children = _
    exact ih _ (updateNode_independent newPrice currentPrice m hN hD)

theorem copyOf_congr (newPrice a b : Element) (m : Marker)
    (h : querySelector m.sel a.children = querySelector m.sel b.children) :
    copyOf newPrice a m = copyOf newPrice b m := by
  unfold copyOf
  rw [h]

/-- What a run of `updateNode` calls leaves under each marker of an
independent block. -/
theorem updateNodes_query (newPrice : Element) (ms : List Marker) (currentPrice : Element)
    (hN : nonNested newPrice.children = true) (hD : independent currentPrice.children = true)
    (hms : ms.Nodup) (m : Marker) :
    querySelector m.sel (updateNodes newPrice ms currentPrice).children
      = if m ∈ ms then copyOf newPrice currentPrice m
        else querySelector m.sel currentPrice.children := by
  induction ms generalizing currentPrice with
  | nil => simp [updateNodes]
  | cons m0 ms ih =>
    show querySelector m.sel (updateNodes newPrice ms (updateNode newPrice m0.sel currentPrice)).children = _
    rw [List.nodup_cons] at hms
    rw [ih _ (updateNode_independent newPrice currentPrice m0 hN hD) hms.2]
    by_cases h0 : m = m0
    · subst h0
      simp [hms.1, updateNode_same]
    · have hq := updateNode_other newPrice currentPrice m0 m hN hD (fun h => h0 h.symm)
      rw [copyOf_congr newPrice _ currentPrice m hq, hq]
      simp [h0]

theorem updateNodes_eq_self (newPrice base x : Element) (ms : List Marker)
    (h : ∀ m ∈ ms, querySelector m.sel x.children = copyOf newPrice base m) :
    updateNodes newPrice ms x = x := by
  induction ms with
  | nil => rfl
  | cons m ms ih =>
    show updateNodes newPrice ms (updateNode newPrice m.sel x) = x
    rw [updateNode_eq_self newPrice base x m (h m (by simp))]
    exact ih (fun m' hm' => h m' (by simp [hm']))

theorem syncBadgeClass_children (b : Bool) (x : Element) :
    (syncBadgeClass b x).children = x.children := by
  unfold syncBadgeClass
  split
  · rfl
  · split <;> rfl

theorem syncBadgeClass_data_congr (b : Bool) (x y : Element) (h : x.data = y.data) :
    (syncBadgeClass b x).data = (syncBadgeClass b y).data := by
  unfold syncBadgeClass
  rw [h]
  split
  · rfl
  · split
    · rfl
    · exact h

theorem classListContains_add (c : String) (l : List String) :
    classListContains c (classListAdd c l) = true := by
  unfold classListContains classListAdd
  split <;> simp_all

theorem classListContains_remove (c : String) (l : List String) :
    classListContains c (classListRemove c l) = false := by
  unfold classListContains classListRemove
  simp

theorem syncBadgeClass_contains (b : Bool) (x : Element) :
    classListContains badgeClass (syncBadgeClass b x).data.classes = b := by
  unfold syncBadgeClass
  cases b
  · cases h : classListContains badgeClass x.data.classes
    · simp [h]
    · simp [h, classListContains_remove]
  · cases h : classListContains badgeClass x.data.classes
    · simp [h, classListContains_add]
    · simp [h]

theorem syncBadgeClass_of_agree (b : Bool) (x : Element)
    (h : classListContains badgeClass x.data.classes = b) : syncBadgeClass b x = x := by
  unfold syncBadgeClass
  cases b <;> simp [h]

theorem syncBadgeClass_idem (b : Bool) (x : Element) :
    syncBadgeClass b (syncBadgeClass b x) = syncBadgeClass b x :=
  syncBadgeClass_of_agree b _ (syncBadgeClass_contains b x)

theorem reconcile_children (newPrice : Element) (b : Bool) (currentPrice : Element) :
    (reconcile newPrice b currentPrice).children
      = (updateNodes newPrice (copiedMarkers b) currentPrice).children := by
  rw [reconcile_eq, syncBadgeClass_children]

theorem reconcile_data (newPrice : Element) (b : Bool) (currentPrice : Element) :
    (reconcile newPrice b currentPrice).data = (syncBadgeClass b currentPrice).data := by
  rw [reconcile_eq]
  exact syncBadgeClass_data_congr b _ _ (updateNodes_data _ _ _)

theorem syncBadgeClass_attrs (b : Bool) (x : Element) :
    (syncBadgeClass b x).data.attrs = x.data.attrs := by
  unfold syncBadgeClass
  split
  · rfl
  · split <;> rfl

theorem reconcile_selPriceContainer (newPrice : Element) (b : Bool) (el : Element)
    (h : selPriceContainer el.data = true) :
    selPriceContainer (reconcile newPrice b el).data = true := by
  unfold selPriceContainer at *
  rw [reconcile_data, syncBadgeClass_attrs]
  exact h

/-- What `reconcile` leaves under each marker of an independent block. -/
theorem reconcile_query (newPrice : Element) (b : Bool) (currentPrice : Element)
    (hN : nonNested newPrice.children = true) (hD : independent currentPrice.children = true)
    (m : Marker) :
    querySelector m.sel (reconcile newPrice b currentPrice).children
      = if m ∈ copiedMarkers b then copyOf newPrice currentPrice m
        else querySelector m.sel currentPrice.children := by
  rw [reconcile_children]
  exact updateNodes_query newPrice _ currentPrice hN hD (copiedMarkers_nodup b) m

/-- On independent blocks `reconcile` is idempotent. -/
theorem reconcile_idem (newPrice : Element) (b : Bool) (currentPrice : Element)
    (hN : nonNested newPrice.children = true) (hD : independent currentPrice.children = true) :
    reconcile newPrice b (reconcile newPrice b currentPrice)
      = reconcile newPrice b currentPrice := by
  have key : updateNodes newPrice (copiedMarkers b) (reconcile newPrice b currentPrice)
      = reconcile newPrice b currentPrice := by
    apply updateNodes_eq_self newPrice currentPrice
    intro m hm
    rw [reconcile_query newPrice b currentPrice hN hD m, if_pos hm]
  rw [reconcile_eq newPrice b (reconcile newPrice b currentPrice), key, reconcile_eq,
    syncBadgeClass_idem]

/-! ### Attributes -/

theorem getAttr_setAttr_same (name value : String) (l : List (String × String)) :
    getAttr name (setAttr name value l) = some value := by
  induction l with
  | nil => simp [setAttr, getAttr]
  | cons kv rest ih =>
    obtain ⟨k, v⟩ := kv
    by_cases h : k = name
    · simp [setAttr, getAttr, h]
    · simp [setAttr, getAttr, h, ih]

theorem getAttr_setAttr_other (name name' value : String) (l : List (String × String))
    (hne : name' ≠ name) : getAttr name' (setAttr name value l) = getAttr name' l := by
  induction l with
  | nil =>
    have h : ¬ name = name' := fun h => hne h.symm
    simp [setAttr, getAttr, h]
  | cons kv rest ih =>
    obtain ⟨k, v⟩ := kv
    by_cases h : k = name
    · subst h
      have h' : ¬ k = name' := fun h => hne h.symm
      simp [setAttr, getAttr, h']
    · simp [setAttr, getAttr, h, ih]

theorem setAttr_setAttr (name value : String) (l : List (String × String)) :
    setAttr name value (setAttr name value l) = setAttr name value l := by
  induction l with
  | nil => simp [setAttr]
  | cons kv rest ih =>
    obtain ⟨k, v⟩ := kv
    by_cases h : k = name
    · simp [setAttr, h]
    · simp [setAttr, h, ih]

theorem setProductId_idem (v : String) (e : ElemData) :
    setProductId v (setProductId v e) = setProductId v e := by
  simp [setProductId, setAttr_setAttr]

theorem showDiscountBadgeAttr_setProductId (v : String) (e : ElemData) :
    showDiscountBadgeAttr (setProductId v e) = showDiscountBadgeAttr e := by
  unfold showDiscountBadgeAttr setProductId
  exact getAttr_setAttr_other _ _ _ _ (by decide)

/-! ### The identity gate -/

theorem identityGate_children (event : VariantUpdateEvent) (self self1 : Element)
    (h : identityGate event self = some self1) : self1.children = self.children := by
  unfold identityGate at h
  split at h
  · simp only [Option.some.injEq] at h; subst h; rfl
  · split at h
    · split at h
      · exact absurd h (by simp)
      · simp only [Option.some.injEq] at h; subst h; rfl
    · simp only [Option.some.injEq] at h; subst h; rfl

theorem identityGate_showDiscountBadge (event : VariantUpdateEvent) (self self1 : Element)
    (h : identityGate event self = some self1) :
    showDiscountBadgeAttr self1.data = showDiscountBadgeAttr self.data := by
  unfold identityGate at h
  split at h
  · simp only [Option.some.injEq] at h; subst h
    exact showDiscountBadgeAttr_setProductId _ _
  · split at h
    · split at h
      · exact absurd h (by simp)
      · simp only [Option.some.injEq] at h; subst h; rfl
    · simp only [Option.some.injEq] at h; subst h; rfl

/-- A second pass through the gate, on an instance that differs from the gated
one in its child forest only, changes nothing. -/
theorem identityGate_again (event : VariantUpdateEvent) (self self1 : Element) (ch : Dom)
    (h : identityGate event self = some self1) :
    identityGate event { self1 with children := ch } = some { self1 with children := ch } := by
  unfold identityGate at h ⊢
  split at h
  · simp only [Option.some.injEq] at h; subst h
    simp [setProductId_idem]
  · split at h
    · split at h
      · exact absurd h (by simp)
      · rename_i hh
        simp only [Option.some.injEq] at h; subst h
        simp only [ne_eq, Decidable.not_not] at hh
        simp [hh]
    · simp only [Option.some.injEq] at h; subst h; rfl

/-! ### `updatePrice` -/

theorem updatePriceRun_of_gate_none (event : VariantUpdateEvent) (self : Element)
    (h : identityGate event self = none) : updatePriceRun event self = (Exit.gate, self) := by
  simp [updatePriceRun, h]

theorem updatePriceRun_of_blocks (event : VariantUpdateEvent) (self self1 newPrice currentPrice : Element)
    (hg : identityGate event self = some self1) (hn : incomingBlock event = some newPrice)
    (hc : priceContainer self = some currentPrice) :
    updatePriceRun event self = (Exit.done,
      { self1 with
        children := modifyFirst selPriceContainer
          (reconcile newPrice (showDiscountBadgeAttr self.data == some "true")) self.children }) := by
  have hch := identityGate_children event self self1 hg
  have hc1 : priceContainer self1 = some currentPrice := by
    unfold priceContainer at *; rw [hch]; exact hc
  simp only [updatePriceRun, hg, hn, hc1, hch, identityGate_showDiscountBadge event self self1 hg]

theorem updatePriceRun_of_no_block (event : VariantUpdateEvent) (self self1 : Element)
    (hg : identityGate event self = some self1)
    (h : incomingBlock event = none ∨ priceContainer self = none) :
    updatePriceRun event self = (Exit.noBlock, self1) := by
  have hch := identityGate_children event self self1 hg
  have h1 : incomingBlock event = none ∨ priceContainer self1 = none := by
    unfold priceContainer at *; rw [hch]; exact h
  simp only [updatePriceRun, hg]
  rcases h1 with h1 | h1
  · simp [h1]
  · rw [h1]
    cases incomingBlock event <;> rfl

/-- A run that reaches the end of `updatePrice` passed the gate and found both blocks. -/
theorem updatePriceRun_done (event : VariantUpdateEvent) (self : Element)
    (h : (updatePriceRun event self).1 = Exit.done) :
    ∃ self1 newPrice currentPrice, identityGate event self = some self1 ∧
      incomingBlock event = some newPrice ∧ priceContainer self = some currentPrice := by
  cases hg : identityGate event self with
  | none => rw [updatePriceRun_of_gate_none event self hg] at h; exact absurd h (by simp)
  | some self1 =>
    cases hn : incomingBlock event with
    | none =>
      rw [updatePriceRun_of_no_block event self self1 hg (Or.inl hn)] at h
      exact absurd h (by simp)
    | some newPrice =>
      cases hc : priceContainer self with
      | none =>
        rw [updatePriceRun_of_no_block event self self1 hg (Or.inr hc)] at h
        exact absurd h (by simp)
      | some currentPrice => exact ⟨self1, newPrice, currentPrice, rfl, rfl, rfl⟩

/-- The instance's block after an accepted notification is `reconcile` of the
block before it. -/
theorem priceContainer_updatePrice (event : VariantUpdateEvent) (self newPrice currentPrice : Element)
    (hdone : (updatePriceRun event self).1 = Exit.done)
    (hn : incomingBlock event = some newPrice) (hc : priceContainer self = some currentPrice) :
    priceContainer (updatePrice event self)
      = some (reconcile newPrice (showDiscountBadgeAttr self.data == some "true") currentPrice) := by
  obtain ⟨self1, newPrice', currentPrice', hg, hn', hc'⟩ := updatePriceRun_done event self hdone
  unfold updatePrice
  rw [updatePriceRun_of_blocks event self self1 newPrice currentPrice hg hn hc]
  unfold priceContainer at hc ⊢
  simp only
  rw [querySelector_modifyFirst selPriceContainer _ (reconcile_selPriceContainer newPrice _), hc]
  rfl

/-! ## Claims -/

/-- C3, as stated, fails: a notification without new-product payload whose
originating element is an SVG element of product "999" passes the gate of the
instance of product "123" (the gate tests `instanceof HTMLElement` first), and
the instance's price is rewritten. -/
theorem updatePrice_other_product_foreign_target_accepted :
    c3SvgEvent.newProduct = none ∧
    c3SvgEvent.target.asElement.map productId = some (some "999") ∧
    productId c3Instance.data = some "123" ∧
    (updatePriceRun c3SvgEvent c3Instance).1 = Exit.done ∧
    updatePrice c3SvgEvent c3Instance ≠ c3Instance ∧
    subFragmentContent .price c3Instance = some (txt "$20.00") ∧
    subFragmentContent .price (updatePrice c3SvgEvent c3Instance) = some (txt "$15.00") := by
  decide

/-- C3, amended. A notification without a new-product payload whose
originating element is an `HTMLElement` with a product identifier different
from the instance's leaves the whole instance unchanged (its attributes, every
sub-fragment, the container's class list): `updatePrice` returns at the gate
with the instance it was given. -/
theorem updatePrice_other_product_unchanged (event : VariantUpdateEvent) (self : Element)
    (target : ElemData) (hnp : event.newProduct = none) (ht : event.target.asHTMLElement = some target)
    (hne : productId target ≠ productId self.data) :
    updatePrice event self = self ∧ (updatePriceRun event self).1 = Exit.gate := by
  have hg : identityGate event self = none := by
    simp [identityGate, hnp, ht, hne]
  rw [updatePrice, updatePriceRun_of_gate_none event self hg]
  exact ⟨rfl, rfl⟩

/-- C3, amended, at the scenario of the specification: instance "123", an
HTML element "999" as target, no new-product payload. -/
theorem updatePrice_other_product_unchanged_witness :
    c3Event.newProduct = none ∧
    c3Event.target = EventTarget.htmlElement (pickerOf "999") ∧
    productId (pickerOf "999") ≠ productId c3Instance.data ∧
    updatePrice c3Event c3Instance = c3Instance ∧
    (updatePriceRun c3Event c3Instance).1 = Exit.gate :=
  ⟨rfl, rfl, by decide,
    updatePrice_other_product_unchanged c3Event c3Instance (pickerOf "999") rfl rfl (by decide)⟩

/-- C7. After a notification with a new-product payload the instance's product
identifier is the payload's, whatever it was before, whatever the originating
element carries and whether or not a price block is found on either side. -/
theorem updatePrice_new_product_id (event : VariantUpdateEvent) (self : Element)
    (newProduct : NewProduct) (hnp : event.newProduct = some newProduct) :
    productId (updatePrice event self).data = some newProduct.id := by
  have hg : identityGate event self
      = some { self with data := setProductId newProduct.id self.data } := by
    simp [identityGate, hnp]
  have hid : productId (setProductId newProduct.id self.data) = some newProduct.id :=
    getAttr_setAttr_same _ _ _
  unfold updatePrice
  cases hn : incomingBlock event with
  | none => rw [updatePriceRun_of_no_block event self _ hg (Or.inl hn)]; exact hid
  | some newPrice =>
    cases hc : priceContainer self with
    | none => rw [updatePriceRun_of_no_block event self _ hg (Or.inr hc)]; exact hid
    | some currentPrice =>
      rw [updatePriceRun_of_blocks event self _ newPrice currentPrice hg hn hc]; exact hid

/-- C7 at a concrete input: prior identifier "123", payload "456", originating
element "999", no price block in the incoming markup. -/
theorem updatePrice_new_product_id_witness :
    c7Event.newProduct = some ⟨"456"⟩ ∧
    productId (updatePrice c7Event c7Instance).data = some "456" :=
  ⟨rfl, updatePrice_new_product_id c7Event c7Instance ⟨"456"⟩ rfl⟩

/-- C10. Exact acceptance condition of the identity gate. Without a
new-product payload, `updatePrice` gets past the gate exactly when the
originating target is not an HTML element or its product identifier equals the
instance's as an optional string; so a target without identifier is discarded
when the instance has one, and a target with one is discarded when the
instance has none. With a new-product payload the gate is always passed. -/
theorem identity_gate_acceptance (event : VariantUpdateEvent) (self : Element) :
    (event.newProduct = none →
      ((updatePriceRun event self).1 ≠ Exit.gate ↔
        (event.target.asHTMLElement = none ∨
          ∃ target, event.target.asHTMLElement = some target ∧ productId target = productId self.data))) ∧
    (∀ target v, event.newProduct = none → event.target.asHTMLElement = some target →
      productId target = none → productId self.data = some v →
      (updatePriceRun event self).1 = Exit.gate) ∧
    (∀ target v, event.newProduct = none → event.target.asHTMLElement = some target →
      productId target = some v → productId self.data = none →
      (updatePriceRun event self).1 = Exit.gate) ∧
    (∀ newProduct, event.newProduct = some newProduct →
      (updatePriceRun event self).1 ≠ Exit.gate) := by
  have notGate : ∀ self1, identityGate event self = some self1 →
      (updatePriceRun event self).1 ≠ Exit.gate := by
    intro self1 hg
    cases hn : incomingBlock event with
    | none => rw [updatePriceRun_of_no_block event self self1 hg (Or.inl hn)]; simp
    | some newPrice =>
      cases hc : priceContainer self with
      | none => rw [updatePriceRun_of_no_block event self self1 hg (Or.inr hc)]; simp
      | some currentPrice =>
        rw [updatePriceRun_of_blocks event self self1 newPrice currentPrice hg hn hc]; simp
  have gate : ∀ target, event.newProduct = none → event.target.asHTMLElement = some target →
      productId target ≠ productId self.data → (updatePriceRun event self).1 = Exit.gate := by
    intro target hnp ht hne
    rw [updatePriceRun_of_gate_none event self (by simp [identityGate, hnp, ht, hne])]
  refine ⟨?_, ?_, ?_, ?_⟩
  · intro hnp
    constructor
    · intro h
      cases ht : event.target.asHTMLElement with
      | none => exact Or.inl rfl
      | some target =>
        refine Or.inr ⟨target, rfl, ?_⟩
        by_contra hne
        exact h (gate target hnp ht hne)
    · rintro (ht | ⟨target, ht, heq⟩)
      · exact notGate self (by simp [identityGate, hnp, ht])
      · exact notGate self (by simp [identityGate, hnp, ht, heq])
  · intro target v hnp ht h1 h2
    exact gate target hnp ht (by rw [h1, h2]; simp)
  · intro target v hnp ht h1 h2
    exact gate target hnp ht (by rw [h1, h2]; simp)
  · intro newProduct hnp
    exact notGate { self with data := setProductId newProduct.id self.data }
      (by simp [identityGate, hnp])

/-! ### The container class -/

theorem classListAdd_filter (c : String) (l : List String) :
    (classListAdd c l).filter (fun x => x != c) = l.filter (fun x => x != c) := by
  unfold classListAdd
  split
  · rfl
  · simp [List.filter_append]

theorem classListRemove_filter (c : String) (l : List String) :
    (classListRemove c l).filter (fun x => x != c) = l.filter (fun x => x != c) := by
  unfold classListRemove
  simp [List.filter_filter]

theorem syncBadgeClass_filter (b : Bool) (x : Element) :
    (syncBadgeClass b x).data.classes.filter (fun c => c != badgeClass)
      = x.data.classes.filter (fun c => c != badgeClass) := by
  unfold syncBadgeClass
  split
  · exact classListAdd_filter _ _
  · split
    · exact classListRemove_filter _ _
    · rfl

theorem classListContains_of_filter (c d : String) (l l' : List String) (hne : c ≠ d)
    (h : l.filter (fun x => x != d) = l'.filter (fun x => x != d)) :
    classListContains c l = classListContains c l' := by
  have key : ∀ l : List String,
      classListContains c l = classListContains c (l.filter (fun x => x != d)) := by
    intro l
    unfold classListContains
    rw [Bool.eq_iff_iff]
    simp [List.mem_filter, hne]
  rw [key l, key l', h]

/-! ## Claims on the guards and the container class -/

/-- C4, as stated, fails: with a new-product payload and no price block in the
incoming markup, the instance's product identifier changes. -/
theorem updatePrice_missing_block_changes_product_id :
    (incomingBlock c4Event = none ∨ priceContainer c4Instance = none) ∧
    productId c4Instance.data = some "123" ∧
    productId (updatePrice c4Event c4Instance).data = some "456" ∧
    updatePrice c4Event c4Instance ≠ c4Instance := by
  decide

/-- C4, amended. When the price block is absent from the incoming markup or
from the instance, `updatePrice` leaves the instance's child markup (every
sub-fragment, the container's class list), its tag, id, classes and every
attribute other than the product identifier unchanged; without a new-product
payload the instance as a whole is unchanged. -/
theorem updatePrice_missing_block (event : VariantUpdateEvent) (self : Element)
    (h : incomingBlock event = none ∨ priceContainer self = none) :
    (updatePrice event self).children = self.children ∧
    (updatePrice event self).data.tag = self.data.tag ∧
    (updatePrice event self).data.id = self.data.id ∧
    (updatePrice event self).data.classes = self.data.classes ∧
    (∀ name, name ≠ "data-product-id" →
      getAttr name (updatePrice event self).data.attrs = getAttr name self.data.attrs) ∧
    (event.newProduct = none → updatePrice event self = self) := by
  unfold updatePrice
  cases hg : identityGate event self with
  | none =>
    rw [updatePriceRun_of_gate_none event self hg]
    exact ⟨rfl, rfl, rfl, rfl, fun _ _ => rfl, fun _ => rfl⟩
  | some self1 =>
    rw [updatePriceRun_of_no_block event self self1 hg h]
    simp only
    unfold identityGate at hg
    split at hg
    · simp only [Option.some.injEq] at hg; subst hg
      rename_i newProduct hnp
      refine ⟨rfl, rfl, rfl, rfl, ?_, ?_⟩
      · intro name hne
        exact getAttr_setAttr_other _ _ _ _ hne
      · intro h0; rw [h0] at hnp; exact absurd hnp (by simp)
    · have hs : self1 = self := by
        split at hg
        · split at hg
          · exact absurd hg (by simp)
          · simp only [Option.some.injEq] at hg; exact hg.symm
        · simp only [Option.some.injEq] at hg; exact hg.symm
      subst hs
      exact ⟨rfl, rfl, rfl, rfl, fun _ _ => rfl, fun _ => rfl⟩

/-- C4, amended, at a concrete input: the scenario of the counterexample. -/
theorem updatePrice_missing_block_witness :
    (incomingBlock c4Event = none ∨ priceContainer c4Instance = none) ∧
    (updatePrice c4Event c4Instance).children = c4Instance.children ∧
    showDiscountBadgeAttr (updatePrice c4Event c4Instance).data
      = showDiscountBadgeAttr c4Instance.data :=
  have h := updatePrice_missing_block c4Event c4Instance (Or.inl (by decide))
  ⟨Or.inl (by decide), h.1, h.2.2.2.2.1 "data-show-discount-badge" (by decide)⟩

/-- C8. After an accepted notification the instance's price container has the
class `price--has-badge` exactly when the display mode is "show badge",
whatever its class list was; every other class is kept (same tokens, same
order), and the class list is the one it was when it already agreed with the
display mode. -/
theorem updatePrice_badge_class (event : VariantUpdateEvent) (self currentPrice : Element)
    (hdone : (updatePriceRun event self).1 = Exit.done)
    (hc : priceContainer self = some currentPrice) :
    ∃ after, priceContainer (updatePrice event self) = some after ∧
      (classListContains badgeClass after.data.classes = true ↔
        showDiscountBadgeAttr self.data = some "true") ∧
      (∀ c, c ≠ badgeClass →
        classListContains c after.data.classes = classListContains c currentPrice.data.classes) ∧
      after.data.classes.filter (fun c => c != badgeClass)
        = currentPrice.data.classes.filter (fun c => c != badgeClass) ∧
      ((classListContains badgeClass currentPrice.data.classes = true ↔
          showDiscountBadgeAttr self.data = some "true") →
        after.data.classes = currentPrice.data.classes) := by
  obtain ⟨self1, newPrice, currentPrice', hg, hn, hc'⟩ := updatePriceRun_done event self hdone
  refine ⟨_, priceContainer_updatePrice event self newPrice currentPrice hdone hn hc, ?_, ?_, ?_, ?_⟩
  · rw [reconcile_data, syncBadgeClass_contains]
    simp
  · intro c hne
    rw [reconcile_data]
    exact classListContains_of_filter c badgeClass _ _ hne (syncBadgeClass_filter _ _)
  · rw [reconcile_data]
    exact syncBadgeClass_filter _ _
  · intro hagree
    rw [reconcile_data, syncBadgeClass_of_agree]
    rw [Bool.eq_iff_iff]
    simpa using hagree

/-- C8 at a concrete input: the class is removed, the two others stay. -/
theorem updatePrice_badge_class_witness :
    (updatePriceRun c8Event c8Instance).1 = Exit.done ∧
    (∃ after, priceContainer (updatePrice c8Event c8Instance) = some after ∧
      (classListContains badgeClass after.data.classes = true ↔
        showDiscountBadgeAttr c8Instance.data = some "true") ∧
      (∀ c, c ≠ badgeClass →
        classListContains c after.data.classes
          = classListContains c ["price-block", "price--has-badge", "text-left"]) ∧
      after.data.classes.filter (fun c => c != badgeClass) = ["price-block", "text-left"] ∧
      ((classListContains badgeClass ["price-block", "price--has-badge", "text-left"] = true ↔
          showDiscountBadgeAttr c8Instance.data = some "true") →
        after.data.classes = ["price-block", "price--has-badge", "text-left"])) :=
  ⟨by decide,
    updatePrice_badge_class c8Event c8Instance
      ⟨⟨"div", none, ["price-block", "price--has-badge", "text-left"], [("ref", "priceContainer")]⟩,
        span ["price"] (txt "$20.00") .nil⟩ (by decide) (by decide)⟩

/-! ### Sub-fragments after an accepted notification -/

/-- What an accepted notification leaves under each marker of the instance's
block, for independent blocks. -/
theorem subFragment_updatePrice (event : VariantUpdateEvent) (self newPrice currentPrice : Element)
    (hdone : (updatePriceRun event self).1 = Exit.done)
    (hn : incomingBlock event = some newPrice) (hc : priceContainer self = some currentPrice)
    (hN : nonNested newPrice.children = true) (hD : independent currentPrice.children = true)
    (m : Marker) :
    subFragment m (updatePrice event self)
      = if m ∈ copiedMarkers (showDiscountBadgeAttr self.data == some "true")
        then copyOf newPrice currentPrice m else subFragment m self := by
  unfold subFragment
  rw [priceContainer_updatePrice event self newPrice currentPrice hdone hn hc, hc]
  exact reconcile_query newPrice _ currentPrice hN hD m

theorem copyOf_content_of_both (newPrice currentPrice : Element) (m : Marker)
    (hs : (blockContent m newPrice).isSome = true)
    (hd : (blockContent m currentPrice).isSome = true) :
    (copyOf newPrice currentPrice m).map Element.children = blockContent m newPrice := by
  unfold blockContent at *
  unfold copyOf
  cases h1 : querySelector m.sel newPrice.children with
  | none => simp [h1] at hs
  | some src =>
    cases h2 : querySelector m.sel currentPrice.children with
    | none => simp [h2] at hd
    | some dst => rfl

theorem copyOf_of_missing (newPrice currentPrice : Element) (m : Marker)
    (h : blockContent m newPrice = none ∨ blockContent m currentPrice = none) :
    copyOf newPrice currentPrice m = querySelector m.sel currentPrice.children := by
  unfold blockContent at h
  unfold copyOf
  cases h1 : querySelector m.sel newPrice.children with
  | none => rfl
  | some src =>
    cases h2 : querySelector m.sel currentPrice.children with
    | none => rfl
    | some dst => simp [h1, h2] at h

theorem subFragmentContent_eq_blockContent (m : Marker) (self currentPrice : Element)
    (hc : priceContainer self = some currentPrice) :
    subFragmentContent m self = blockContent m currentPrice := by
  unfold subFragmentContent subFragment blockContent
  rw [hc]
  rfl

/-- The two cases of a copied marker, on independent blocks: the incoming
content when both sides have the sub-fragment, no change otherwise. -/
theorem subFragmentContent_copied (event : VariantUpdateEvent) (self newPrice currentPrice : Element)
    (hdone : (updatePriceRun event self).1 = Exit.done)
    (hn : incomingBlock event = some newPrice) (hc : priceContainer self = some currentPrice)
    (hN : nonNested newPrice.children = true) (hD : independent currentPrice.children = true)
    (m : Marker)
    (hm : m ∈ copiedMarkers (showDiscountBadgeAttr self.data == some "true")) :
    ((blockContent m newPrice).isSome = true → (subFragmentContent m self).isSome = true →
      subFragmentContent m (updatePrice event self) = blockContent m newPrice) ∧
    (blockContent m newPrice = none ∨ subFragmentContent m self = none →
      subFragmentContent m (updatePrice event self) = subFragmentContent m self) := by
  have hsub := subFragment_updatePrice event self newPrice currentPrice hdone hn hc hN hD m
  rw [if_pos hm] at hsub
  have hcont := subFragmentContent_eq_blockContent m self currentPrice hc
  constructor
  · intro h1 h2
    rw [hcont] at h2
    unfold subFragmentContent
    rw [hsub]
    exact copyOf_content_of_both newPrice currentPrice m h1 h2
  · intro h
    rw [hcont] at h
    rw [hcont]
    unfold subFragmentContent
    rw [hsub, copyOf_of_missing newPrice currentPrice m h]
    rfl

/-- A marker that is not copied, on independent blocks: no change. -/
theorem subFragment_not_copied (event : VariantUpdateEvent) (self newPrice currentPrice : Element)
    (hdone : (updatePriceRun event self).1 = Exit.done)
    (hn : incomingBlock event = some newPrice) (hc : priceContainer self = some currentPrice)
    (hN : nonNested newPrice.children = true) (hD : independent currentPrice.children = true)
    (m : Marker)
    (hm : m ∉ copiedMarkers (showDiscountBadgeAttr self.data == some "true")) :
    subFragment m (updatePrice event self) = subFragment m self := by
  rw [subFragment_updatePrice event self newPrice currentPrice hdone hn hc hN hD m, if_neg hm]

/-! ## Claims on the selective copy -/

/-- C1, as stated, fails. In a "show badge" instance whose compare-at price
lies inside the price element, an accepted notification rewrites the
compare-at price content ("$20.00" becomes "$25.00"). And in a "show badge"
instance with badge "Sale", an accepted notification whose block has no badge
leaves "Sale" in place: the instance's badge is not the incoming block's. -/
theorem updatePrice_show_badge_rewrites_nested_compare_at :
    (showDiscountBadgeAttr c1NestedInstance.data = some "true" ∧
      (updatePriceRun c1NestedEvent c1NestedInstance).1 = Exit.done ∧
      subFragmentContent .compareAtPrice c1NestedInstance = some (txt "$20.00") ∧
      subFragmentContent .compareAtPrice (updatePrice c1NestedEvent c1NestedInstance)
        = some (txt "$25.00")) ∧
    (showDiscountBadgeAttr c1StaleInstance.data = some "true" ∧
      (updatePriceRun c1StaleEvent c1StaleInstance).1 = Exit.done ∧
      (incomingBlock c1StaleEvent).bind (blockContent .priceBadge) = none ∧
      subFragmentContent .priceBadge (updatePrice c1StaleEvent c1StaleInstance)
        = some (txt "Sale")) := by
  decide

/-- C1, amended. For a "show badge" instance and an accepted notification
whose blocks are independent (in the incoming block no marked sub-fragment
lies inside another; in the instance's block neither that nor an element with
two markers): the compare-at price sub-fragment is the element it was, with
the content it had; each badge sub-fragment present on both sides has the
incoming content afterwards; one missing on either side is left as it was. -/
theorem updatePrice_show_badge (event : VariantUpdateEvent) (self newPrice currentPrice : Element)
    (hmode : showDiscountBadgeAttr self.data = some "true")
    (hdone : (updatePriceRun event self).1 = Exit.done)
    (hn : incomingBlock event = some newPrice) (hc : priceContainer self = some currentPrice)
    (hN : nonNested newPrice.children = true) (hD : independent currentPrice.children = true) :
    subFragment .compareAtPrice (updatePrice event self) = subFragment .compareAtPrice self ∧
    subFragmentContent .compareAtPrice (updatePrice event self)
      = subFragmentContent .compareAtPrice self ∧
    ∀ m, m = Marker.priceBadge ∨ m = Marker.badgesBadge →
      ((blockContent m newPrice).isSome = true → (subFragmentContent m self).isSome = true →
        subFragmentContent m (updatePrice event self) = blockContent m newPrice) ∧
      (blockContent m newPrice = none ∨ subFragmentContent m self = none →
        subFragmentContent m (updatePrice event self) = subFragmentContent m self) := by
  have hkeep := subFragment_not_copied event self newPrice currentPrice hdone hn hc hN hD
    .compareAtPrice (by rw [hmode]; decide)
  refine ⟨hkeep, ?_, ?_⟩
  · unfold subFragmentContent; rw [hkeep]
  · intro m hm
    apply subFragmentContent_copied event self newPrice currentPrice hdone hn hc hN hD m
    rw [hmode]
    rcases hm with rfl | rfl <;> decide

/-- C1, amended, at a concrete input: compare-at "$20.00" stays, the badges
become "20% off" and "-20%". -/
theorem updatePrice_show_badge_witness :
    showDiscountBadgeAttr c1Instance.data = some "true" ∧
    (updatePriceRun c1Event c1Instance).1 = Exit.done ∧
    nonNested c1Incoming = true ∧ independent c1Block = true ∧
    subFragmentContent .compareAtPrice (updatePrice c1Event c1Instance) = some (txt "$20.00") ∧
    subFragmentContent .priceBadge (updatePrice c1Event c1Instance) = some (txt "20% off") ∧
    subFragmentContent .badgesBadge (updatePrice c1Event c1Instance) = some (txt "-20%") :=
  have h := updatePrice_show_badge c1Event c1Instance
    ⟨⟨"div", none, [], [("ref", "priceContainer")]⟩, c1Incoming⟩
    ⟨⟨"div", none, [], [("ref", "priceContainer")]⟩, c1Block⟩
    (by decide) (by decide) (by decide) (by decide) (by decide) (by decide)
  ⟨by decide, by decide, by decide, by decide, h.2.1,
    (h.2.2 .priceBadge (Or.inl rfl)).1 (by decide) (by decide),
    (h.2.2 .badgesBadge (Or.inr rfl)).1 (by decide) (by decide)⟩

/-- C2, as stated, fails. In a "show crossed price" instance whose discount
badge lies inside the price element, an accepted notification rewrites the
badge content ("Sale" becomes "20% off"). And in a "show crossed price"
instance with compare-at price "$25.00", an accepted notification whose block
has no compare-at price leaves "$25.00" in place: the instance's compare-at
price is not the incoming block's. -/
theorem updatePrice_crossed_price_rewrites_nested_badge :
    (showDiscountBadgeAttr c2NestedInstance.data ≠ some "true" ∧
      (updatePriceRun c2NestedEvent c2NestedInstance).1 = Exit.done ∧
      subFragmentContent .priceBadge c2NestedInstance = some (txt "Sale") ∧
      subFragmentContent .priceBadge (updatePrice c2NestedEvent c2NestedInstance)
        = some (txt "20% off")) ∧
    (showDiscountBadgeAttr c2StaleInstance.data ≠ some "true" ∧
      (updatePriceRun c2StaleEvent c2StaleInstance).1 = Exit.done ∧
      (incomingBlock c2StaleEvent).bind (blockContent .compareAtPrice) = none ∧
      subFragmentContent .compareAtPrice (updatePrice c2StaleEvent c2StaleInstance)
        = some (txt "$25.00")) := by
  decide

/-- C2, amended. For a "show crossed price" instance (display attribute other
than "true") and an accepted notification whose blocks are independent (in the
incoming block no marked sub-fragment lies inside another; in the instance's
block neither that nor an element with two markers): both badge sub-fragments
are the elements they were, with the content they had; the compare-at price
sub-fragment, when present on both sides, has the incoming content afterwards,
and is left as it was when missing on either side. -/
theorem updatePrice_crossed_price (event : VariantUpdateEvent)
    (self newPrice currentPrice : Element)
    (hmode : showDiscountBadgeAttr self.data ≠ some "true")
    (hdone : (updatePriceRun event self).1 = Exit.done)
    (hn : incomingBlock event = some newPrice) (hc : priceContainer self = some currentPrice)
    (hN : nonNested newPrice.children = true) (hD : independent currentPrice.children = true) :
    (∀ m, m = Marker.priceBadge ∨ m = Marker.badgesBadge →
      subFragment m (updatePrice event self) = subFragment m self ∧
      subFragmentContent m (updatePrice event self) = subFragmentContent m self) ∧
    ((blockContent .compareAtPrice newPrice).isSome = true →
      (subFragmentContent .compareAtPrice self).isSome = true →
      subFragmentContent .compareAtPrice (updatePrice event self)
        = blockContent .compareAtPrice newPrice) ∧
    (blockContent .compareAtPrice newPrice = none ∨ subFragmentContent .compareAtPrice self = none →
      subFragmentContent .compareAtPrice (updatePrice event self)
        = subFragmentContent .compareAtPrice self) := by
  have hb : (showDiscountBadgeAttr self.data == some "true") = false := by
    simpa using hmode
  refine ⟨?_, ?_⟩
  · intro m hm
    have hkeep := subFragment_not_copied event self newPrice currentPrice hdone hn hc hN hD m
      (by rw [hb]; rcases hm with rfl | rfl <;> decide)
    refine ⟨hkeep, ?_⟩
    unfold subFragmentContent; rw [hkeep]
  · apply subFragmentContent_copied event self newPrice currentPrice hdone hn hc hN hD
    rw [hb]
    decide

/-- C2, amended, at a concrete input: the badges stay "Sale", the compare-at
price becomes "$30.00". -/
theorem updatePrice_crossed_price_witness :
    showDiscountBadgeAttr c2Instance.data ≠ some "true" ∧
    (updatePriceRun c2Event c2Instance).1 = Exit.done ∧
    nonNested c2Incoming = true ∧ independent c2Block = true ∧
    subFragmentContent .priceBadge (updatePrice c2Event c2Instance) = some (txt "Sale") ∧
    subFragmentContent .badgesBadge (updatePrice c2Event c2Instance) = some (txt "Sale") ∧
    subFragmentContent .compareAtPrice (updatePrice c2Event c2Instance) = some (txt "$30.00") :=
  have h := updatePrice_crossed_price c2Event c2Instance
    ⟨⟨"div", none, [], [("ref", "priceContainer")]⟩, c2Incoming⟩
    ⟨⟨"div", none, [], [("ref", "priceContainer")]⟩, c2Block⟩
    (by decide) (by decide) (by decide) (by decide) (by decide) (by decide)
  ⟨by decide, by decide, by decide, by decide,
    (h.1 .priceBadge (Or.inl rfl)).2, (h.1 .badgesBadge (Or.inr rfl)).2,
    h.2.1 (by decide) (by decide)⟩

/-- C6, as stated, fails: the primary price exists in the incoming block and
in the instance, yet after an accepted notification the instance's primary
price is not the incoming one, because the unit-price copy overwrote the
element that had received it. -/
theorem updatePrice_price_lost_under_unit_price :
    (updatePriceRun c6NestedEvent c6NestedInstance).1 = Exit.done ∧
    (incomingBlock c6NestedEvent).bind (blockContent .price) = some (txt "$15.00") ∧
    subFragmentContent .price c6NestedInstance = some (txt "$4.00") ∧
    subFragmentContent .price (updatePrice c6NestedEvent c6NestedInstance)
      = some (txt "$20.00") := by
  decide

/-- C6, amended. In both display modes, for an accepted notification whose
blocks are independent (in the incoming block no marked sub-fragment lies
inside another; in the instance's block neither that nor an element with two
markers), the primary price and the unit price are each copied on their own:
one present on both sides has the incoming content afterwards, one missing on
either side is left as it was (nothing is created). -/
theorem updatePrice_price_and_unit_price (event : VariantUpdateEvent)
    (self newPrice currentPrice : Element)
    (hdone : (updatePriceRun event self).1 = Exit.done)
    (hn : incomingBlock event = some newPrice) (hc : priceContainer self = some currentPrice)
    (hN : nonNested newPrice.children = true) (hD : independent currentPrice.children = true) :
    ∀ m, m = Marker.price ∨ m = Marker.unitPrice →
      ((blockContent m newPrice).isSome = true → (subFragmentContent m self).isSome = true →
        subFragmentContent m (updatePrice event self) = blockContent m newPrice) ∧
      (blockContent m newPrice = none ∨ subFragmentContent m self = none →
        subFragment m (updatePrice event self) = subFragment m self ∧
        subFragmentContent m (updatePrice event self) = subFragmentContent m self) := by
  intro m hm
  have hmem : m ∈ copiedMarkers (showDiscountBadgeAttr self.data == some "true") := by
    cases (showDiscountBadgeAttr self.data == some "true") <;>
      rcases hm with rfl | rfl <;> decide
  have h := subFragmentContent_copied event self newPrice currentPrice hdone hn hc hN hD m hmem
  refine ⟨h.1, fun hmiss => ⟨?_, h.2 hmiss⟩⟩
  rw [subFragment_updatePrice event self newPrice currentPrice hdone hn hc hN hD m, if_pos hmem]
  rw [subFragmentContent_eq_blockContent m self currentPrice hc] at hmiss
  rw [copyOf_of_missing newPrice currentPrice m hmiss]
  unfold subFragment
  rw [hc]
  rfl

/-- C6, amended, at the scenario of the specification: price "$15.00", unit
price "$5.00/ea", badge "20% off", compare-at price still "$20.00", class
`price--has-badge` present. -/
theorem updatePrice_price_and_unit_price_witness :
    (updatePriceRun c6Event c6Instance).1 = Exit.done ∧
    nonNested c6Incoming = true ∧ independent c6Block = true ∧
    subFragmentContent .price (updatePrice c6Event c6Instance) = some (txt "$15.00") ∧
    subFragmentContent .unitPrice (updatePrice c6Event c6Instance) = some (txt "$5.00/ea") ∧
    subFragmentContent .priceBadge (updatePrice c6Event c6Instance) = some (txt "20% off") ∧
    subFragmentContent .compareAtPrice (updatePrice c6Event c6Instance) = some (txt "$20.00") ∧
    (priceContainer (updatePrice c6Event c6Instance)).map
      (fun c => classListContains badgeClass c.data.classes) = some true :=
  have h := updatePrice_price_and_unit_price c6Event c6Instance
    ⟨⟨"div", none, [], [("ref", "priceContainer")]⟩, c6Incoming⟩
    ⟨⟨"div", none, [], [("ref", "priceContainer")]⟩, c6Block⟩
    (by decide) (by decide) (by decide) (by decide) (by decide)
  ⟨by decide, by decide, by decide,
    (h .price (Or.inl rfl)).1 (by decide) (by decide),
    (h .unitPrice (Or.inr rfl)).1 (by decide) (by decide),
    by decide, by decide, by decide⟩

/-! ### Writes -/

theorem reconcileWrites_eq (newPrice : Element) (b : Bool) (currentPrice : Element) :
    reconcileWrites newPrice b currentPrice
      = updateNodesWrites newPrice (copiedMarkers b) currentPrice
        + syncBadgeClassWrites b (updateNodes newPrice (copiedMarkers b) currentPrice) := by
  cases b <;>
    simp [reconcileWrites, copiedMarkers, updateNodesWrites, updateNodes, Nat.add_assoc]

theorem updateNodeWrites_eq_zero (newPrice base x : Element) (m : Marker)
    (h : querySelector m.sel x.children = copyOf newPrice base m) :
    updateNodeWrites newPrice m.sel x = 0 := by
  unfold updateNodeWrites
  unfold copyOf at h
  cases hs : querySelector m.sel newPrice.children with
  | none => simp
  | some src =>
    cases hd : querySelector m.sel x.children with
    | none => simp
    | some dst =>
      rw [hs, hd] at h
      cases hb : querySelector m.sel base.children with
      | none => rw [hb] at h; simp at h
      | some b =>
        rw [hb] at h
        simp only [Option.some.injEq] at h
        subst h
        simp

theorem updateNodesWrites_eq_zero (newPrice base x : Element) (ms : List Marker)
    (h : ∀ m ∈ ms, querySelector m.sel x.children = copyOf newPrice base m) :
    updateNodesWrites newPrice ms x = 0 := by
  induction ms with
  | nil => rfl
  | cons m ms ih =>
    simp only [updateNodesWrites]
    rw [updateNodeWrites_eq_zero newPrice base x m (h m (by simp)),
      updateNode_eq_self newPrice base x m (h m (by simp)),
      ih (fun m' hm' => h m' (by simp [hm']))]

theorem syncBadgeClassWrites_of_agree (b : Bool) (x : Element)
    (h : classListContains badgeClass x.data.classes = b) : syncBadgeClassWrites b x = 0 := by
  unfold syncBadgeClassWrites
  cases b <;> simp [h]

/-- Running `reconcile` on an independent block it has produced writes nothing. -/
theorem reconcileWrites_reconcile (newPrice : Element) (b : Bool) (currentPrice : Element)
    (hN : nonNested newPrice.children = true) (hD : independent currentPrice.children = true) :
    reconcileWrites newPrice b (reconcile newPrice b currentPrice) = 0 := by
  have hq : ∀ m ∈ copiedMarkers b,
      querySelector m.sel (reconcile newPrice b currentPrice).children
        = copyOf newPrice currentPrice m := by
    intro m hm
    rw [reconcile_query newPrice b currentPrice hN hD m, if_pos hm]
  rw [reconcileWrites_eq, updateNodesWrites_eq_zero newPrice currentPrice _ _ hq,
    updateNodes_eq_self newPrice currentPrice _ _ hq]
  rw [syncBadgeClassWrites_of_agree]
  rw [reconcile_data, syncBadgeClass_contains]

/-! ## Idempotence -/

/-- C5, as stated, fails: on an instance whose unit price holds a price
element, the second handling of the same notification rewrites the primary
price that the first one left untouched (one `innerHTML` assignment), so the
instance after two handlings is not the instance after one. -/
theorem updatePrice_twice_differs_on_nested :
    updatePrice c5NestedEvent (updatePrice c5NestedEvent c5NestedInstance)
      ≠ updatePrice c5NestedEvent c5NestedInstance ∧
    subFragmentContent .price (updatePrice c5NestedEvent c5NestedInstance)
      = some (txt "$20.00") ∧
    subFragmentContent .price
        (updatePrice c5NestedEvent (updatePrice c5NestedEvent c5NestedInstance))
      = some (txt "$15.00") ∧
    updatePriceWrites c5NestedEvent (updatePrice c5NestedEvent c5NestedInstance) = 1 := by
  decide

/-- C5, amended. `updatePrice` is idempotent on independent blocks: when,
whenever both price blocks are found, no marked sub-fragment of the incoming
block lies inside another and in the instance's block neither that happens nor
an element carries two markers, handling a notification twice in a row gives
the instance that handling it once gives, and the second handling changes
nothing: it performs no `innerHTML` assignment and no class toggle. -/
theorem updatePrice_idempotent (event : VariantUpdateEvent) (self : Element)
    (hblocks : ∀ newPrice currentPrice, incomingBlock event = some newPrice →
      priceContainer self = some currentPrice →
      nonNested newPrice.children = true ∧ independent currentPrice.children = true) :
    updatePrice event (updatePrice event self) = updatePrice event self ∧
    updatePriceWrites event (updatePrice event self) = 0 := by
  unfold updatePrice updatePriceWrites
  cases hg : identityGate event self with
  | none =>
    rw [updatePriceRun_of_gate_none event self hg]
    simp only
    rw [updatePriceRun_of_gate_none event self hg, hg]
    exact ⟨rfl, rfl⟩
  | some self1 =>
    have hch := identityGate_children event self self1 hg
    have hg1 : identityGate event self1 = some self1 :=
      identityGate_again event self self1 self1.children hg
    by_cases hmiss : incomingBlock event = none ∨ priceContainer self = none
    · rw [updatePriceRun_of_no_block event self self1 hg hmiss]
      simp only
      have hmiss1 : incomingBlock event = none ∨ priceContainer self1 = none := by
        unfold priceContainer at *; rw [hch]; exact hmiss
      rw [updatePriceRun_of_no_block event self1 self1 hg1 hmiss1, hg1]
      refine ⟨rfl, ?_⟩
      rcases hmiss1 with h | h
      · simp [h]
      · simp only [h]
        cases incomingBlock event <;> rfl
    · rw [not_or] at hmiss
      obtain ⟨newPrice, hn⟩ := Option.ne_none_iff_exists'.mp hmiss.1
      obtain ⟨currentPrice, hc⟩ := Option.ne_none_iff_exists'.mp hmiss.2
      obtain ⟨hN, hD⟩ := hblocks newPrice currentPrice hn hc
      have hmode := identityGate_showDiscountBadge event self self1 hg
      rw [updatePriceRun_of_blocks event self self1 newPrice currentPrice hg hn hc]
      simp only
      generalize hb : (showDiscountBadgeAttr self.data == some "true") = b
      have hpres := reconcile_selPriceContainer newPrice b
      have hg2 := identityGate_again event self self1
        (modifyFirst selPriceContainer (reconcile newPrice b) self.children) hg
      have hc2 : priceContainer
          { self1 with children := modifyFirst selPriceContainer (reconcile newPrice b) self.children }
          = some (reconcile newPrice b currentPrice) := by
        unfold priceContainer at hc ⊢
        simp only
        rw [querySelector_modifyFirst selPriceContainer _ hpres, hc]
        rfl
      rw [updatePriceRun_of_blocks event _ _ newPrice _ hg2 hn hc2, hg2]
      simp only [hmode, hb, hn, hc2]
      refine ⟨?_, reconcileWrites_reconcile newPrice b currentPrice hN hD⟩
      rw [modifyFirst_modifyFirst selPriceContainer _ _ hpres]
      congr 1
      apply modifyFirst_congr
      intro el hel
      unfold priceContainer at hc
      rw [hc] at hel
      simp only [Option.some.injEq] at hel
      subst hel
      exact reconcile_idem newPrice b currentPrice hN hD

/-- C5, amended, at a concrete input: a notification with a new product and
new contents, handled twice; the first handling writes, the second does not. -/
theorem updatePrice_idempotent_witness :
    (updatePriceRun c5Event c5Instance).1 = Exit.done ∧
    updatePrice c5Event c5Instance ≠ c5Instance ∧
    0 < updatePriceWrites c5Event c5Instance ∧
    updatePrice c5Event (updatePrice c5Event c5Instance) = updatePrice c5Event c5Instance ∧
    updatePriceWrites c5Event (updatePrice c5Event c5Instance) = 0 :=
  ⟨by decide, by decide, by decide,
    updatePrice_idempotent c5Event c5Instance
      (fun newPrice currentPrice hn hc => by
        have h1 : newPrice = ⟨⟨"div", none, [], [("ref", "priceContainer")]⟩, c5Incoming⟩ :=
          (Option.some.inj hn).symm
        have h2 : currentPrice = ⟨⟨"div", none, [], [("ref", "priceContainer")]⟩, c5Block⟩ :=
          (Option.some.inj hc).symm
        subst h1; subst h2; decide)⟩

/-! ## Lifecycle -/

/-- C9, at the failing input. `connectedCallback` registers the handler of the
instance (node 1) on its section (node 3); once the instance has been removed
from its parent, `disconnectedCallback` finds no section and returns, and the
registration on node 3 stays. -/
theorem disconnectedCallback_after_removal_keeps_listener (variantUpdate : String) :
    connectedCallback variantUpdate c9Self c9Ancestors [] = [⟨3, variantUpdate, 1⟩] ∧
    ancestorsAfterRemoval 0 c9Ancestors = [] ∧
    disconnectedCallback variantUpdate c9Self (ancestorsAfterRemoval 0 c9Ancestors)
      (connectedCallback variantUpdate c9Self c9Ancestors []) = [⟨3, variantUpdate, 1⟩] := by
  refine ⟨?_, rfl, ?_⟩
  · simp [connectedCallback, closest, c9Self, c9Ancestors, selSectionOrDialog, selClass,
      addEventListener]
  · simp [connectedCallback, disconnectedCallback, ancestorsAfterRemoval, closest, c9Self,
      c9Ancestors, selSectionOrDialog, selClass, addEventListener]

/-- Detach undoes attach when the section found at detach time is the one
found at attach time and the handler was not registered on it before. -/
theorem disconnectedCallback_connectedCallback (variantUpdate : String) (self : NodeRef)
    (ancestors ancestors' : List NodeRef) (registry : List Listener) (closestSection : NodeRef)
    (hattach : closest selSectionOrDialog self ancestors = some closestSection)
    (hdetach : closest selSectionOrDialog self ancestors' = some closestSection)
    (hnew : (⟨closestSection.uid, variantUpdate, self.uid⟩ : Listener) ∉ registry) :
    disconnectedCallback variantUpdate self ancestors'
      (connectedCallback variantUpdate self ancestors registry) = registry := by
  simp only [connectedCallback, disconnectedCallback, hattach, hdetach, addEventListener,
    removeEventListener, hnew, if_false, List.filter_append]
  have h1 : registry.filter (fun x => x != (⟨closestSection.uid, variantUpdate, self.uid⟩ : Listener))
      = registry := by
    rw [List.filter_eq_self]
    intro a ha
    simp only [bne_iff_ne, ne_eq]
    intro h; subst h; exact hnew ha
  rw [h1]
  simp

/-- An instance without section-or-dialog ancestor registers and unregisters
nothing. -/
theorem lifecycle_without_section (variantUpdate : String) (self : NodeRef)
    (ancestors : List NodeRef) (registry : List Listener)
    (h : closest selSectionOrDialog self ancestors = none) :
    connectedCallback variantUpdate self ancestors registry = registry ∧
    disconnectedCallback variantUpdate self ancestors registry = registry := by
  simp [connectedCallback, disconnectedCallback, h]

end ProductPrice
